import Mathlib

/-!
Verification of the autoscaling-lifecycle reverse-proxy hook
(`src/lambda/asgLifeCycleHooks/reverseProxy/index.py`).

The handler is embedded shallowly: each collaborator (EC2 metadata, Route53,
SSM, the autoscaling control plane) is an oracle supplying the outcome of each
outbound call, and the handler is a pure function from a configuration, an
oracle and an event to the list of outbound calls it performs together with
its final outcome (normal return, or a Python exception escaping the handler).
-/

namespace ReverseProxyHook

/-- A Python exception, as far as this module distinguishes them:
`keyError k` models a `KeyError` raised by a dict/environment lookup of key
`k`; `clientError m` models `botocore.exceptions.ClientError`; `exception m`
models a `raise Exception(m)`; `otherError m` is any other exception an
external call may raise. -/
inductive PyErr where
  | keyError (key : String)
  | clientError (msg : String)
  | exception (msg : String)
  | otherError (msg : String)
deriving DecidableEq, Repr

/-- One outbound collaborator call, with the exact arguments passed. -/
inductive Call where
  | get_instance_public_dns_name (instanceId : String)
  | update_hosted_zone_cname_record
      (hostedZoneId rootDomain domainPrefix address : String)
  | delete_hosted_zone_cname_record
      (hostedZoneId rootDomain domainPrefix address : String)
  | run_commands (instanceId : String) (commands : List String)
      (document : String)
  | complete_lifecycle_action
      (hookName groupName token result instanceId : String)
deriving DecidableEq, Repr

/-- Outcomes of the collaborator calls: `Except.error e` means the call raised
exception `e`, `Except.ok v` that it returned `v`. -/
structure Oracle where
  get_instance_public_dns_name : String → Except PyErr String
  update_hosted_zone_cname_record :
      String → String → String → String → Except PyErr Unit
  delete_hosted_zone_cname_record :
      String → String → String → String → Except PyErr Unit
  run_commands : String → List String → String → Except PyErr String
  complete_lifecycle_action :
      String → String → String → String → String → Except PyErr Unit

/-- The `event["detail"]` dict: each field is `none` when the key is absent. -/
structure EventDetail where
  EC2InstanceId : Option String
  LifecycleTransition : Option String
  LifecycleHookName : Option String
  AutoScalingGroupName : Option String
  LifecycleActionToken : Option String
deriving DecidableEq, Repr

/-- The triggering event: `detail = none` when the `"detail"` key is absent. -/
structure Event where
  detail : Option EventDetail
deriving DecidableEq, Repr

/-- The six module-level configuration values read from the environment. -/
structure Config where
  R53_HOSTED_ZONE_ID : String
  ARTIFACTS_BUCKET : String
  NUCLEUS_ROOT_DOMAIN : String
  NUCLEUS_DOMAIN_PREFIX : String
  NUCLEUS_SERVER_ADDRESS : String
  REVERSE_PROXY_SSL_CERT_ARN : String
deriving DecidableEq, Repr

/-- `os.environ[k]`: the value when present, otherwise a `KeyError k`. -/
def envKey (env : String → Option String) (k : String) : Except PyErr String :=
  match env k with
  | some v => Except.ok v
  | none => Except.error (PyErr.keyError k)

/-- Module initialization (`index.py` lines 22–27): the six environment reads
executed at import time, before any event is handled. A missing key raises
`KeyError` here and the module fails to load. -/
def initModule (env : String → Option String) : Except PyErr Config := do
  let z ← envKey env "R53_HOSTED_ZONE_ID"
  let b ← envKey env "ARTIFACTS_BUCKET"
  let rd ← envKey env "NUCLEUS_ROOT_DOMAIN"
  let dp ← envKey env "NUCLEUS_DOMAIN_PREFIX"
  let sa ← envKey env "NUCLEUS_SERVER_ADDRESS"
  let ca ← envKey env "REVERSE_PROXY_SSL_CERT_ARN"
  pure ⟨z, b, rd, dp, sa, ca⟩

/-- The environment keys the module reads at load time. -/
def requiredEnvKeys : List String :=
  ["R53_HOSTED_ZONE_ID", "ARTIFACTS_BUCKET", "NUCLEUS_ROOT_DOMAIN",
   "NUCLEUS_DOMAIN_PREFIX", "NUCLEUS_SERVER_ADDRESS",
   "REVERSE_PROXY_SSL_CERT_ARN"]

/-- The event keys the handler and `send_lifecycle_action` read. -/
def eventKeys : List String :=
  ["detail", "EC2InstanceId", "LifecycleTransition", "LifecycleHookName",
   "AutoScalingGroupName", "LifecycleActionToken"]

/-- The four event fields `send_lifecycle_action` passes to
`complete_lifecycle_action`, looked up in the argument order of the source
(hook name, group name, token, instance id); the first absent key raises
`KeyError` before the API call is made. -/
def reportArgs (event : Event) :
    Except PyErr (String × String × String × String) :=
  match event.detail with
  | none => Except.error (PyErr.keyError "detail")
  | some d =>
    match d.LifecycleHookName with
    | none => Except.error (PyErr.keyError "LifecycleHookName")
    | some hook =>
      match d.AutoScalingGroupName with
      | none => Except.error (PyErr.keyError "AutoScalingGroupName")
      | some grp =>
        match d.LifecycleActionToken with
        | none => Except.error (PyErr.keyError "LifecycleActionToken")
        | some tok =>
          match d.EC2InstanceId with
          | none => Except.error (PyErr.keyError "EC2InstanceId")
          | some iid => Except.ok (hook, grp, tok, iid)

/-- `send_lifecycle_action(event, result)`: calls
`autoscaling.complete_lifecycle_action` echoing the event's hook name, group
name, token and instance id. A `ClientError` from the API is re-raised as
`Exception("Error completing lifecycle action: …")`; any other exception
(including a `KeyError` while evaluating the arguments, in which case the API
call is never made) propagates unchanged. -/
def send_lifecycle_action (o : Oracle) (event : Event) (result : String) :
    List Call × Except PyErr Unit :=
  match reportArgs event with
  | Except.error e => ([], Except.error e)
  | Except.ok (hook, grp, tok, iid) =>
    match o.complete_lifecycle_action hook grp tok result iid with
    | Except.ok _ =>
        ([Call.complete_lifecycle_action hook grp tok result iid],
         Except.ok ())
    | Except.error (PyErr.clientError m) =>
        ([Call.complete_lifecycle_action hook grp tok result iid],
         Except.error
           (PyErr.exception ("Error completing lifecycle action: " ++ m)))
    | Except.error e =>
        ([Call.complete_lifecycle_action hook grp tok result iid],
         Except.error e)

/-- The shell command sequence of `update_nginix_config`, verbatim from the
source, parameterized exactly as its f-strings are. -/
def commands
    (artifactsBucket nucleusServerAddress certArn domain : String) :
    List String :=
  ["echo ------------------------ REVERSE PROXY CONFIG ------------------------",
   "echo UPDATING PACKAGES ----------------------------------",
   "sudo yum update -y",
   "echo INSTALLING DEPENDENCIES ----------------------------------",
   "sudo yum install -y aws-cfn-bootstrap gcc openssl-devel bzip2-devel libffi-devel zlib-devel",
   "echo INSTALLING PYTHON ----------------------------------",
   "sudo wget https://www.python.org/ftp/python/3.9.9/Python-3.9.9.tgz -P /opt/python3.9",
   "cd /opt/python3.9",
   "sudo tar xzf Python-3.9.9.tgz",
   "cd Python-3.9.9",
   "sudo ./configure --prefix=/usr --enable-optimizations",
   "sudo make install",
   "echo INSTALLING REVERSE PROXY TOOLS ----------------------------------",
   "cd /opt",
   "sudo aws s3 cp s3://" ++ artifactsBucket ++ "/tools/tools.zip ./tools.zip",
   "sudo unzip -o tools.zip",
   "cd reverseProxy",
   "pip3 --version",
   "sudo pip3 install -r requirements.txt",
   "rpt generate-acm-yaml --cert-arn " ++ certArn,
   "sudo rpt generate-nginx-config --domain " ++ domain
     ++ " --server-address " ++ nucleusServerAddress,
   "sudo mv acm.yaml /etc/nitro_enclaves/acm.yaml",
   "sudo mv -f nginx.conf /etc/nginx/nginx.conf",
   "echo STARTING NGINX ----------------------------------",
   "systemctl start nitro-enclaves-acm.service",
   "systemctl enable nitro-enclaves-acm"]

/-- `update_nginix_config`: one `ssm.run_commands` call with the command
sequence and the `AWS-RunShellScript` document. -/
def update_nginix_config (o : Oracle)
    (instanceId artifactsBucket nucleusServerAddress certArn domain : String) :
    List Call × Except PyErr String :=
  let cmds := commands artifactsBucket nucleusServerAddress certArn domain
  match o.run_commands instanceId cmds "AWS-RunShellScript" with
  | Except.ok r =>
      ([Call.run_commands instanceId cmds "AWS-RunShellScript"], Except.ok r)
  | Except.error e =>
      ([Call.run_commands instanceId cmds "AWS-RunShellScript"],
       Except.error e)

/-- The hostname the handler passes to the provisioner:
`f"{NUCLEUS_DOMAIN_PREFIX}.{NUCLEUS_ROOT_DOMAIN}"`. -/
def provisionDomain (cfg : Config) : String :=
  cfg.NUCLEUS_DOMAIN_PREFIX ++ "." ++ cfg.NUCLEUS_ROOT_DOMAIN

/-- Modelled from the spec: the record hostname used by
`aws_utils.r53.update_hosted_zone_cname_record` /
`delete_hosted_zone_cname_record`, whose source is not under `src/`. The spec
says the fixed hostname is `{prefix}.{root_domain}`. -/
def r53RecordName (rootDomain domainPrefix : String) : String :=
  domainPrefix ++ "." ++ rootDomain

/-- The `except Exception` block of either branch: `send_lifecycle_action`
with result `ABANDON`, appended after the calls already made in the `try`
block. Its exception, if any, propagates out of the handler. -/
def abandonReport (o : Oracle) (event : Event) (pre : List Call) :
    List Call × Except PyErr Unit :=
  let r := send_lifecycle_action o event "ABANDON"
  (pre ++ r.1, r.2)

/-- The `try` block of the `EC2_INSTANCE_LAUNCHING` branch together with its
`except Exception` handler. -/
def launchBranch (cfg : Config) (o : Oracle) (event : Event)
    (instanceId : String) : List Call × Except PyErr Unit :=
  let c1 := Call.get_instance_public_dns_name instanceId
  match o.get_instance_public_dns_name instanceId with
  | Except.error _ => abandonReport o event [c1]
  | Except.ok revProxyServerAddress =>
    let c2 := Call.update_hosted_zone_cname_record cfg.R53_HOSTED_ZONE_ID
      cfg.NUCLEUS_ROOT_DOMAIN cfg.NUCLEUS_DOMAIN_PREFIX revProxyServerAddress
    match o.update_hosted_zone_cname_record cfg.R53_HOSTED_ZONE_ID
        cfg.NUCLEUS_ROOT_DOMAIN cfg.NUCLEUS_DOMAIN_PREFIX
        revProxyServerAddress with
    | Except.error _ => abandonReport o event [c1, c2]
    | Except.ok _ =>
      let prov := update_nginix_config o instanceId cfg.ARTIFACTS_BUCKET
        cfg.NUCLEUS_SERVER_ADDRESS cfg.REVERSE_PROXY_SSL_CERT_ARN
        (provisionDomain cfg)
      match prov.2 with
      | Except.error _ => abandonReport o event ([c1, c2] ++ prov.1)
      | Except.ok _ =>
        let rep := send_lifecycle_action o event "CONTINUE"
        match rep.2 with
        | Except.ok _ => ([c1, c2] ++ prov.1 ++ rep.1, Except.ok ())
        | Except.error _ =>
            abandonReport o event ([c1, c2] ++ prov.1 ++ rep.1)

/-- The `try` block of the `EC2_INSTANCE_TERMINATING` branch together with its
`except Exception` handler. -/
def terminateBranch (cfg : Config) (o : Oracle) (event : Event)
    (instanceId : String) : List Call × Except PyErr Unit :=
  let c1 := Call.get_instance_public_dns_name instanceId
  match o.get_instance_public_dns_name instanceId with
  | Except.error _ => abandonReport o event [c1]
  | Except.ok serverAddress =>
    let c2 := Call.delete_hosted_zone_cname_record cfg.R53_HOSTED_ZONE_ID
      cfg.NUCLEUS_ROOT_DOMAIN cfg.NUCLEUS_DOMAIN_PREFIX serverAddress
    match o.delete_hosted_zone_cname_record cfg.R53_HOSTED_ZONE_ID
        cfg.NUCLEUS_ROOT_DOMAIN cfg.NUCLEUS_DOMAIN_PREFIX serverAddress with
    | Except.error _ => abandonReport o event [c1, c2]
    | Except.ok _ =>
      let rep := send_lifecycle_action o event "CONTINUE"
      match rep.2 with
      | Except.ok _ => ([c1, c2] ++ rep.1, Except.ok ())
      | Except.error _ => abandonReport o event ([c1, c2] ++ rep.1)

/-- The Lambda handler: reads `event["detail"]["EC2InstanceId"]` and
`event["detail"]["LifecycleTransition"]` (each lookup may raise `KeyError`,
which escapes — these reads are outside both `try` blocks), then dispatches
on the transition string; an unrecognized transition falls through to the
final `return` with no call made. -/
def handler (cfg : Config) (o : Oracle) (event : Event) :
    List Call × Except PyErr Unit :=
  match event.detail with
  | none => ([], Except.error (PyErr.keyError "detail"))
  | some d =>
    match d.EC2InstanceId with
    | none => ([], Except.error (PyErr.keyError "EC2InstanceId"))
    | some instanceId =>
      match d.LifecycleTransition with
      | none => ([], Except.error (PyErr.keyError "LifecycleTransition"))
      | some transition =>
        if transition = "autoscaling:EC2_INSTANCE_LAUNCHING" then
          launchBranch cfg o event instanceId
        else if transition = "autoscaling:EC2_INSTANCE_TERMINATING" then
          terminateBranch cfg o event instanceId
        else ([], Except.ok ())

/-- What `send_lifecycle_action` returns once the four event fields resolved:
the API outcome, with `ClientError` re-raised as `Exception`. -/
def reportOutcome (o : Oracle) (hook grp tok iid result : String) :
    Except PyErr Unit :=
  match o.complete_lifecycle_action hook grp tok result iid with
  | Except.ok _ => Except.ok ()
  | Except.error (PyErr.clientError m) =>
      Except.error
        (PyErr.exception ("Error completing lifecycle action: " ++ m))
  | Except.error e => Except.error e

/-! ### Concrete fixtures used by witnesses and counterexamples -/

/-- An oracle on which every collaborator call succeeds. -/
def okOracle : Oracle where
  get_instance_public_dns_name := fun _ => Except.ok "ec2-host.example.net"
  update_hosted_zone_cname_record := fun _ _ _ _ => Except.ok ()
  delete_hosted_zone_cname_record := fun _ _ _ _ => Except.ok ()
  run_commands := fun _ _ _ => Except.ok "ssm-ok"
  complete_lifecycle_action := fun _ _ _ _ _ => Except.ok ()

/-- A concrete configuration. -/
def cfg0 : Config :=
  ⟨"Z1", "bucket-1", "example.com", "nucleus", "10.0.0.5", "arn:cert-1"⟩

/-- A complete event detail with the launching transition. -/
def launchDetail : EventDetail :=
  ⟨some "i-0abc", some "autoscaling:EC2_INSTANCE_LAUNCHING", some "hook-1",
   some "asg-1", some "tok-1"⟩

/-- A complete event with the launching transition. -/
def launchEvent : Event := ⟨some launchDetail⟩

/-- A complete event detail with the terminating transition. -/
def termDetail : EventDetail :=
  ⟨some "i-0abc", some "autoscaling:EC2_INSTANCE_TERMINATING", some "hook-1",
   some "asg-1", some "tok-1"⟩

/-- A complete event with the terminating transition. -/
def termEvent : Event := ⟨some termDetail⟩

/-! ### Helper lemmas -/

/-- With all four report fields present, `reportArgs` resolves them. -/
theorem reportArgs_full {ev : Event} {d : EventDetail}
    {iid hook grp tok : String}
    (hd : ev.detail = some d) (hiid : d.EC2InstanceId = some iid)
    (hhook : d.LifecycleHookName = some hook)
    (hgrp : d.AutoScalingGroupName = some grp)
    (htok : d.LifecycleActionToken = some tok) :
    reportArgs ev = Except.ok (hook, grp, tok, iid) := by
  simp [reportArgs, hd, hiid, hhook, hgrp, htok]

/-- With all four report fields present, `send_lifecycle_action` makes exactly
one API call, echoing the event's fields, and returns `reportOutcome`. -/
theorem send_full {o : Oracle} {ev : Event} {d : EventDetail}
    {iid hook grp tok : String} (result : String)
    (hd : ev.detail = some d) (hiid : d.EC2InstanceId = some iid)
    (hhook : d.LifecycleHookName = some hook)
    (hgrp : d.AutoScalingGroupName = some grp)
    (htok : d.LifecycleActionToken = some tok) :
    send_lifecycle_action o ev result =
      ([Call.complete_lifecycle_action hook grp tok result iid],
       reportOutcome o hook grp tok iid result) := by
  rw [send_lifecycle_action, reportArgs_full hd hiid hhook hgrp htok]
  rcases h : o.complete_lifecycle_action hook grp tok result iid with e | v
  · cases e <;> simp [reportOutcome, h]
  · simp [reportOutcome, h]

/-! ### Claim theorems -/

/-- C1: for a LAUNCHING event with every collaborator call succeeding, the
handler performs, in order: the instance public-address lookup, the DNS
upsert of the fixed hostname to the resolved address, the remote provisioning
call, and exactly one CONTINUE report — and returns normally. -/
theorem launching_success_call_order
    (cfg : Config) (o : Oracle) (ev : Event) (d : EventDetail)
    (iid hook grp tok addr r : String)
    (hd : ev.detail = some d)
    (hiid : d.EC2InstanceId = some iid)
    (htr : d.LifecycleTransition = some "autoscaling:EC2_INSTANCE_LAUNCHING")
    (hhook : d.LifecycleHookName = some hook)
    (hgrp : d.AutoScalingGroupName = some grp)
    (htok : d.LifecycleActionToken = some tok)
    (hec2 : o.get_instance_public_dns_name iid = Except.ok addr)
    (hr53 : o.update_hosted_zone_cname_record cfg.R53_HOSTED_ZONE_ID
      cfg.NUCLEUS_ROOT_DOMAIN cfg.NUCLEUS_DOMAIN_PREFIX addr = Except.ok ())
    (hssm : o.run_commands iid
      (commands cfg.ARTIFACTS_BUCKET cfg.NUCLEUS_SERVER_ADDRESS
        cfg.REVERSE_PROXY_SSL_CERT_ARN (provisionDomain cfg))
      "AWS-RunShellScript" = Except.ok r)
    (hasg : o.complete_lifecycle_action hook grp tok "CONTINUE" iid
      = Except.ok ()) :
    handler cfg o ev =
      ([Call.get_instance_public_dns_name iid,
        Call.update_hosted_zone_cname_record cfg.R53_HOSTED_ZONE_ID
          cfg.NUCLEUS_ROOT_DOMAIN cfg.NUCLEUS_DOMAIN_PREFIX addr,
        Call.run_commands iid
          (commands cfg.ARTIFACTS_BUCKET cfg.NUCLEUS_SERVER_ADDRESS
            cfg.REVERSE_PROXY_SSL_CERT_ARN (provisionDomain cfg))
          "AWS-RunShellScript",
        Call.complete_lifecycle_action hook grp tok "CONTINUE" iid],
       Except.ok ()) := by
  simp [handler, launchBranch, update_nginix_config, hd, hiid, htr, hec2,
    hr53, hssm, send_full "CONTINUE" hd hiid hhook hgrp htok, reportOutcome,
    hasg]

/-- Witness for C1 at a concrete event, configuration and oracle. -/
theorem launching_success_call_order_witness :
    handler cfg0 okOracle launchEvent =
      ([Call.get_instance_public_dns_name "i-0abc",
        Call.update_hosted_zone_cname_record "Z1" "example.com" "nucleus"
          "ec2-host.example.net",
        Call.run_commands "i-0abc"
          (commands "bucket-1" "10.0.0.5" "arn:cert-1" "nucleus.example.com")
          "AWS-RunShellScript",
        Call.complete_lifecycle_action "hook-1" "asg-1" "tok-1" "CONTINUE"
          "i-0abc"],
       Except.ok ()) :=
  launching_success_call_order cfg0 okOracle launchEvent launchDetail
    "i-0abc" "hook-1" "asg-1" "tok-1" "ec2-host.example.net" "ssm-ok"
    rfl rfl rfl rfl rfl rfl rfl rfl rfl rfl

/-- C2: for a TERMINATING event with every collaborator call succeeding, the
handler resolves the instance public address, issues the DNS delete keyed by
the fixed hostname's parts and the resolved address, and reports CONTINUE
exactly once — the remote provisioner (`run_commands`) is never called. -/
theorem terminating_success_call_order
    (cfg : Config) (o : Oracle) (ev : Event) (d : EventDetail)
    (iid hook grp tok addr : String)
    (hd : ev.detail = some d)
    (hiid : d.EC2InstanceId = some iid)
    (htr : d.LifecycleTransition
      = some "autoscaling:EC2_INSTANCE_TERMINATING")
    (hhook : d.LifecycleHookName = some hook)
    (hgrp : d.AutoScalingGroupName = some grp)
    (htok : d.LifecycleActionToken = some tok)
    (hec2 : o.get_instance_public_dns_name iid = Except.ok addr)
    (hr53 : o.delete_hosted_zone_cname_record cfg.R53_HOSTED_ZONE_ID
      cfg.NUCLEUS_ROOT_DOMAIN cfg.NUCLEUS_DOMAIN_PREFIX addr = Except.ok ())
    (hasg : o.complete_lifecycle_action hook grp tok "CONTINUE" iid
      = Except.ok ()) :
    handler cfg o ev =
      ([Call.get_instance_public_dns_name iid,
        Call.delete_hosted_zone_cname_record cfg.R53_HOSTED_ZONE_ID
          cfg.NUCLEUS_ROOT_DOMAIN cfg.NUCLEUS_DOMAIN_PREFIX addr,
        Call.complete_lifecycle_action hook grp tok "CONTINUE" iid],
       Except.ok ()) := by
  simp [handler, terminateBranch, hd, hiid, htr, hec2, hr53,
    send_full "CONTINUE" hd hiid hhook hgrp htok, reportOutcome, hasg]

/-- Witness for C2 at a concrete event, configuration and oracle. -/
theorem terminating_success_call_order_witness :
    handler cfg0 okOracle termEvent =
      ([Call.get_instance_public_dns_name "i-0abc",
        Call.delete_hosted_zone_cname_record "Z1" "example.com" "nucleus"
          "ec2-host.example.net",
        Call.complete_lifecycle_action "hook-1" "asg-1" "tok-1" "CONTINUE"
          "i-0abc"],
       Except.ok ()) :=
  terminating_success_call_order cfg0 okOracle termEvent termDetail
    "i-0abc" "hook-1" "asg-1" "tok-1" "ec2-host.example.net"
    rfl rfl rfl rfl rfl rfl rfl rfl rfl

/-- C4: an event whose transition is neither recognized string makes the
handler perform no call at all and return normally. -/
theorem unrecognized_transition_silent_noop
    (cfg : Config) (o : Oracle) (ev : Event) (d : EventDetail)
    (iid tr : String)
    (hd : ev.detail = some d)
    (hiid : d.EC2InstanceId = some iid)
    (htr : d.LifecycleTransition = some tr)
    (h1 : tr ≠ "autoscaling:EC2_INSTANCE_LAUNCHING")
    (h2 : tr ≠ "autoscaling:EC2_INSTANCE_TERMINATING") :
    handler cfg o ev = ([], Except.ok ()) := by
  simp [handler, hd, hiid, htr, h1, h2]

/-- Witness for C4 at a concrete event with transition `"unexpected"`. -/
theorem unrecognized_transition_silent_noop_witness :
    handler cfg0 okOracle
      ⟨some ⟨some "i-0abc", some "unexpected", some "hook-1", some "asg-1",
        some "tok-1"⟩⟩ = ([], Except.ok ()) :=
  unrecognized_transition_silent_noop cfg0 okOracle _ _ "i-0abc" "unexpected"
    rfl rfl rfl (by decide) (by decide)

/-- C10: an event missing `detail`, or missing `EC2InstanceId` or
`LifecycleTransition` inside it, makes the handler raise a `KeyError` before
entering either branch: no collaborator call is made (in particular no
report), and the exception escapes. -/
theorem malformed_event_raises_before_branch
    (cfg : Config) (o : Oracle) (ev : Event)
    (h : ev.detail = none
      ∨ ∃ d, ev.detail = some d
          ∧ (d.EC2InstanceId = none ∨ d.LifecycleTransition = none)) :
    (handler cfg o ev).1 = []
      ∧ ∃ k, (handler cfg o ev).2 = Except.error (PyErr.keyError k) := by
  rcases h with h | ⟨d, hd, h | h⟩
  · exact ⟨by simp [handler, h], "detail", by simp [handler, h]⟩
  · exact ⟨by simp [handler, hd, h], "EC2InstanceId",
      by simp [handler, hd, h]⟩
  · rcases hiid : d.EC2InstanceId with _ | iid
    · exact ⟨by simp [handler, hd, hiid], "EC2InstanceId",
        by simp [handler, hd, hiid]⟩
    · exact ⟨by simp [handler, hd, hiid, h], "LifecycleTransition",
        by simp [handler, hd, hiid, h]⟩

/-- Witness for C10 at a concrete event whose detail lacks
`LifecycleTransition`. -/
theorem malformed_event_raises_before_branch_witness :
    (handler cfg0 okOracle
        ⟨some ⟨some "i-0abc", none, some "hook-1", some "asg-1",
          some "tok-1"⟩⟩).1 = []
      ∧ ∃ k, (handler cfg0 okOracle
          ⟨some ⟨some "i-0abc", none, some "hook-1", some "asg-1",
            some "tok-1"⟩⟩).2 = Except.error (PyErr.keyError k) :=
  malformed_event_raises_before_branch cfg0 okOracle _
    (Or.inr ⟨_, rfl, Or.inr rfl⟩)

/-- C6: with prefix `nucleus` and root domain `example.com`, the hostname the
handler hands to the provisioner (`provisionDomain`, used in `launchBranch`)
and the record name the DNS helper builds from the root domain and prefix the
handler passes it (`r53RecordName`) are both `nucleus.example.com`. -/
theorem generated_hostname (cfg : Config)
    (hpre : cfg.NUCLEUS_DOMAIN_PREFIX = "nucleus")
    (hroot : cfg.NUCLEUS_ROOT_DOMAIN = "example.com") :
    provisionDomain cfg = "nucleus.example.com"
      ∧ r53RecordName cfg.NUCLEUS_ROOT_DOMAIN cfg.NUCLEUS_DOMAIN_PREFIX
        = "nucleus.example.com" := by
  rw [provisionDomain, r53RecordName, hpre, hroot]
  exact ⟨rfl, rfl⟩

/-- Witness for C6 at the concrete configuration `cfg0`. -/
theorem generated_hostname_witness :
    provisionDomain cfg0 = "nucleus.example.com"
      ∧ r53RecordName cfg0.NUCLEUS_ROOT_DOMAIN cfg0.NUCLEUS_DOMAIN_PREFIX
        = "nucleus.example.com" :=
  generated_hostname cfg0 rfl rfl

/-- The provisioning phases named by the spec, plus `banner` for the
decorative `echo` separator lines the spec does not mention. -/
inductive ProvisionPhase where
  | banner
  | updatePackages
  | installBuildDeps
  | installRuntime
  | fetchTools
  | installToolDeps
  | genCertConfig
  | genProxyConfig
  | moveConfigs
  | startServices
deriving DecidableEq, Repr

/-- The command sequence of `update_nginix_config`, each command annotated
with the spec phase it realizes. -/
def annotatedCommands
    (artifactsBucket nucleusServerAddress certArn domain : String) :
    List (ProvisionPhase × String) :=
  [(.banner, "echo ------------------------ REVERSE PROXY CONFIG ------------------------"),
   (.banner, "echo UPDATING PACKAGES ----------------------------------"),
   (.updatePackages, "sudo yum update -y"),
   (.banner, "echo INSTALLING DEPENDENCIES ----------------------------------"),
   (.installBuildDeps, "sudo yum install -y aws-cfn-bootstrap gcc openssl-devel bzip2-devel libffi-devel zlib-devel"),
   (.banner, "echo INSTALLING PYTHON ----------------------------------"),
   (.installRuntime, "sudo wget https://www.python.org/ftp/python/3.9.9/Python-3.9.9.tgz -P /opt/python3.9"),
   (.installRuntime, "cd /opt/python3.9"),
   (.installRuntime, "sudo tar xzf Python-3.9.9.tgz"),
   (.installRuntime, "cd Python-3.9.9"),
   (.installRuntime, "sudo ./configure --prefix=/usr --enable-optimizations"),
   (.installRuntime, "sudo make install"),
   (.banner, "echo INSTALLING REVERSE PROXY TOOLS ----------------------------------"),
   (.fetchTools, "cd /opt"),
   (.fetchTools, "sudo aws s3 cp s3://" ++ artifactsBucket ++ "/tools/tools.zip ./tools.zip"),
   (.fetchTools, "sudo unzip -o tools.zip"),
   (.fetchTools, "cd reverseProxy"),
   (.installToolDeps, "pip3 --version"),
   (.installToolDeps, "sudo pip3 install -r requirements.txt"),
   (.genCertConfig, "rpt generate-acm-yaml --cert-arn " ++ certArn),
   (.genProxyConfig, "sudo rpt generate-nginx-config --domain " ++ domain
     ++ " --server-address " ++ nucleusServerAddress),
   (.moveConfigs, "sudo mv acm.yaml /etc/nitro_enclaves/acm.yaml"),
   (.moveConfigs, "sudo mv -f nginx.conf /etc/nginx/nginx.conf"),
   (.banner, "echo STARTING NGINX ----------------------------------"),
   (.startServices, "systemctl start nitro-enclaves-acm.service"),
   (.startServices, "systemctl enable nitro-enclaves-acm")]

/-- Collapses consecutive repetitions of the same phase. -/
def dedupConsec : List ProvisionPhase → List ProvisionPhase
  | [] => []
  | [a] => [a]
  | a :: b :: rest =>
    if a = b then dedupConsec (b :: rest) else a :: dedupConsec (b :: rest)

/-- The spec's provisioning phase order: update OS packages, install build
dependencies, install the runtime interpreter from source, fetch and unpack
the tools archive, install the tool's dependencies, generate the
certificate-manager config, generate the reverse-proxy config, move the
generated files into their system locations, start and enable the services. -/
def specPhaseOrder : List ProvisionPhase :=
  [.updatePackages, .installBuildDeps, .installRuntime, .fetchTools,
   .installToolDeps, .genCertConfig, .genProxyConfig, .moveConfigs,
   .startServices]

/-- C7: the remote provisioning command sequence is exactly the annotated
command list (same commands, same order, same parameterization), and its
phase sequence — banners dropped, consecutive repeats collapsed — is exactly
the spec's phase order. -/
theorem provision_command_order
    (artifactsBucket nucleusServerAddress certArn domain : String) :
    commands artifactsBucket nucleusServerAddress certArn domain
      = (annotatedCommands artifactsBucket nucleusServerAddress certArn
          domain).map Prod.snd
    ∧ dedupConsec
        (((annotatedCommands artifactsBucket nucleusServerAddress certArn
              domain).map Prod.fst).filter
          (fun p => p ≠ ProvisionPhase.banner))
      = specPhaseOrder :=
  ⟨rfl, rfl⟩

/-- The oracle never raises `KeyError`: collaborator APIs raise service
errors, not Python dict-lookup errors, so any `KeyError` in an invocation
comes from the handler's own event lookups. -/
def Oracle.NoKeyErrors (o : Oracle) : Prop :=
  (∀ i k, o.get_instance_public_dns_name i
    ≠ Except.error (PyErr.keyError k))
  ∧ (∀ z r p a k, o.update_hosted_zone_cname_record z r p a
    ≠ Except.error (PyErr.keyError k))
  ∧ (∀ z r p a k, o.delete_hosted_zone_cname_record z r p a
    ≠ Except.error (PyErr.keyError k))
  ∧ (∀ i cs doc k, o.run_commands i cs doc
    ≠ Except.error (PyErr.keyError k))
  ∧ (∀ h g t res i k, o.complete_lifecycle_action h g t res i
    ≠ Except.error (PyErr.keyError k))

/-- Any error of `reportArgs` is a `KeyError` naming an event key. -/
theorem reportArgs_err {ev : Event} {e : PyErr}
    (h : reportArgs ev = Except.error e) :
    ∃ k ∈ eventKeys, e = PyErr.keyError k := by
  rw [reportArgs] at h
  rcases hd : ev.detail with _ | d <;> simp only [hd] at h
  · exact ⟨"detail", by simp [eventKeys],
      by injection h with h2; exact h2.symm⟩
  · rcases hh : d.LifecycleHookName with _ | hook <;> simp only [hh] at h
    · exact ⟨"LifecycleHookName", by simp [eventKeys],
        by injection h with h2; exact h2.symm⟩
    · rcases hg : d.AutoScalingGroupName with _ | grp <;>
        simp only [hg] at h
      · exact ⟨"AutoScalingGroupName", by simp [eventKeys],
          by injection h with h2; exact h2.symm⟩
      · rcases ht : d.LifecycleActionToken with _ | tok <;>
          simp only [ht] at h
        · exact ⟨"LifecycleActionToken", by simp [eventKeys],
            by injection h with h2; exact h2.symm⟩
        · rcases hi : d.EC2InstanceId with _ | iid <;> simp only [hi] at h
          · exact ⟨"EC2InstanceId", by simp [eventKeys],
              by injection h with h2; exact h2.symm⟩
          · exact absurd h (by simp)

/-- Any `KeyError` escaping `send_lifecycle_action` names an event key. -/
theorem send_keyError {o : Oracle} {ev : Event} {res k : String}
    (hno : Oracle.NoKeyErrors o)
    (h : (send_lifecycle_action o ev res).2
      = Except.error (PyErr.keyError k)) :
    k ∈ eventKeys := by
  rw [send_lifecycle_action] at h
  rcases ha : reportArgs ev with e | args
  · simp only [ha] at h
    simp at h
    obtain ⟨k', hk', he⟩ := reportArgs_err ha
    rw [he] at h
    obtain rfl : k' = k := by injection h
    exact hk'
  · obtain ⟨hook, grp, tok, iid⟩ := args
    simp only [ha] at h
    rcases hc : o.complete_lifecycle_action hook grp tok res iid
        with e | v <;> simp only [hc] at h
    · cases e with
      | keyError km => exact absurd hc (hno.2.2.2.2 hook grp tok res iid km)
      | clientError m => simp at h
      | exception m => simp at h
      | otherError m => simp at h
    · simp at h

/-- Any `KeyError` escaping the launch branch names an event key. -/
theorem launchBranch_keyError {cfg : Config} {o : Oracle} {ev : Event}
    {iid k : String} (hno : Oracle.NoKeyErrors o)
    (h : (launchBranch cfg o ev iid).2
      = Except.error (PyErr.keyError k)) :
    k ∈ eventKeys := by
  rw [launchBranch] at h
  rcases h1 : o.get_instance_public_dns_name iid with e | addr <;>
    simp only [h1] at h
  · exact send_keyError hno h
  · rcases h2 : o.update_hosted_zone_cname_record cfg.R53_HOSTED_ZONE_ID
        cfg.NUCLEUS_ROOT_DOMAIN cfg.NUCLEUS_DOMAIN_PREFIX addr with e | v <;>
      simp only [h2] at h
    · exact send_keyError hno h
    · rcases h3 : o.run_commands iid
          (commands cfg.ARTIFACTS_BUCKET cfg.NUCLEUS_SERVER_ADDRESS
            cfg.REVERSE_PROXY_SSL_CERT_ARN (provisionDomain cfg))
          "AWS-RunShellScript" with e | r <;>
        simp only [update_nginix_config, h3] at h
      · exact send_keyError hno h
      · rcases h4 : (send_lifecycle_action o ev "CONTINUE").2 with e | v <;>
          simp only [h4] at h
        · exact send_keyError hno h
        · simp at h

/-- Any `KeyError` escaping the terminate branch names an event key. -/
theorem terminateBranch_keyError {cfg : Config} {o : Oracle} {ev : Event}
    {iid k : String} (hno : Oracle.NoKeyErrors o)
    (h : (terminateBranch cfg o ev iid).2
      = Except.error (PyErr.keyError k)) :
    k ∈ eventKeys := by
  rw [terminateBranch] at h
  rcases h1 : o.get_instance_public_dns_name iid with e | addr <;>
    simp only [h1] at h
  · exact send_keyError hno h
  · rcases h2 : o.delete_hosted_zone_cname_record cfg.R53_HOSTED_ZONE_ID
        cfg.NUCLEUS_ROOT_DOMAIN cfg.NUCLEUS_DOMAIN_PREFIX addr with e | v <;>
      simp only [h2] at h
    · exact send_keyError hno h
    · rcases h3 : (send_lifecycle_action o ev "CONTINUE").2 with e | v <;>
        simp only [h3] at h
      · exact send_keyError hno h
      · simp at h

/-- C8: the module loads iff every required configuration key is present in
the environment — a missing key fails module initialization, before any event
is handled — and per-event handling never raises a `KeyError` naming a
configuration key: as long as the collaborators themselves do not raise
`KeyError`, every `KeyError` out of `handler` names an event key. -/
theorem config_missing_fails_at_startup :
    (∀ env : String → Option String,
      (∃ cfg, initModule env = Except.ok cfg)
        ↔ ∀ k ∈ requiredEnvKeys, (env k).isSome)
    ∧ ∀ (cfg : Config) (o : Oracle) (ev : Event) (k : String),
        Oracle.NoKeyErrors o →
        (handler cfg o ev).2 = Except.error (PyErr.keyError k) →
        k ∈ eventKeys := by
  constructor
  · intro env
    rcases h1 : env "R53_HOSTED_ZONE_ID" with _ | v1 <;>
      rcases h2 : env "ARTIFACTS_BUCKET" with _ | v2 <;>
        rcases h3 : env "NUCLEUS_ROOT_DOMAIN" with _ | v3 <;>
          rcases h4 : env "NUCLEUS_DOMAIN_PREFIX" with _ | v4 <;>
            rcases h5 : env "NUCLEUS_SERVER_ADDRESS" with _ | v5 <;>
              rcases h6 : env "REVERSE_PROXY_SSL_CERT_ARN" with _ | v6 <;>
                simp [initModule, envKey, requiredEnvKeys, bind, Except.bind,
                  pure, Except.pure, h1, h2, h3, h4, h5, h6]
  · intro cfg o ev k hno h
    rw [handler] at h
    rcases hd : ev.detail with _ | d <;> simp only [hd] at h
    · simp at h; simp [eventKeys, ← h]
    · rcases hi : d.EC2InstanceId with _ | iid <;> simp only [hi] at h
      · simp at h; simp [eventKeys, ← h]
      · rcases ht : d.LifecycleTransition with _ | tr <;>
          simp only [ht] at h
        · simp at h; simp [eventKeys, ← h]
        · by_cases hL : tr = "autoscaling:EC2_INSTANCE_LAUNCHING"
          · rw [if_pos hL] at h; exact launchBranch_keyError hno h
          · rw [if_neg hL] at h
            by_cases hT : tr = "autoscaling:EC2_INSTANCE_TERMINATING"
            · rw [if_pos hT] at h; exact terminateBranch_keyError hno h
            · rw [if_neg hT] at h; simp at h

/-- A successful report attempt yields a normal return. -/
theorem reportOutcome_ok {o : Oracle} {hook grp tok iid res : String}
    (h : o.complete_lifecycle_action hook grp tok res iid = Except.ok ()) :
    reportOutcome o hook grp tok iid res = Except.ok () := by
  simp [reportOutcome, h]

/-- A `ClientError` from the report API is re-raised as an `Exception`. -/
theorem reportOutcome_clientError {o : Oracle} {hook grp tok iid res m : String}
    (h : o.complete_lifecycle_action hook grp tok res iid
      = Except.error (PyErr.clientError m)) :
    reportOutcome o hook grp tok iid res
      = Except.error
          (PyErr.exception ("Error completing lifecycle action: " ++ m)) := by
  simp [reportOutcome, h]

/-- Is this call an outbound lifecycle report? -/
def isReport : Call → Bool
  | Call.complete_lifecycle_action _ _ _ _ _ => true
  | _ => false

/-- All collaborator calls of the launch branch succeeding. -/
def launchSucceeds (cfg : Config) (o : Oracle)
    (iid hook grp tok : String) : Prop :=
  ∃ addr r, o.get_instance_public_dns_name iid = Except.ok addr
    ∧ o.update_hosted_zone_cname_record cfg.R53_HOSTED_ZONE_ID
        cfg.NUCLEUS_ROOT_DOMAIN cfg.NUCLEUS_DOMAIN_PREFIX addr
      = Except.ok ()
    ∧ o.run_commands iid
        (commands cfg.ARTIFACTS_BUCKET cfg.NUCLEUS_SERVER_ADDRESS
          cfg.REVERSE_PROXY_SSL_CERT_ARN (provisionDomain cfg))
        "AWS-RunShellScript" = Except.ok r
    ∧ o.complete_lifecycle_action hook grp tok "CONTINUE" iid
      = Except.ok ()

/-- All collaborator calls of the terminate branch succeeding. -/
def terminateSucceeds (cfg : Config) (o : Oracle)
    (iid hook grp tok : String) : Prop :=
  ∃ addr, o.get_instance_public_dns_name iid = Except.ok addr
    ∧ o.delete_hosted_zone_cname_record cfg.R53_HOSTED_ZONE_ID
        cfg.NUCLEUS_ROOT_DOMAIN cfg.NUCLEUS_DOMAIN_PREFIX addr
      = Except.ok ()
    ∧ o.complete_lifecycle_action hook grp tok "CONTINUE" iid
      = Except.ok ()

/-- Exhaustive case analysis of the launch branch over a complete event:
whichever call fails first, the branch performs exactly the calls up to the
failure followed by one ABANDON report attempt whose outcome is the branch's
result; if nothing fails, the branch performs the four calls ending in the
CONTINUE report and returns normally. -/
theorem launchBranch_cases (cfg : Config) (o : Oracle) {ev : Event}
    {d : EventDetail} {iid hook grp tok : String}
    (hd : ev.detail = some d) (hiid : d.EC2InstanceId = some iid)
    (hhook : d.LifecycleHookName = some hook)
    (hgrp : d.AutoScalingGroupName = some grp)
    (htok : d.LifecycleActionToken = some tok) :
    (∃ e, o.get_instance_public_dns_name iid = Except.error e
      ∧ launchBranch cfg o ev iid
        = ([Call.get_instance_public_dns_name iid,
            Call.complete_lifecycle_action hook grp tok "ABANDON" iid],
           reportOutcome o hook grp tok iid "ABANDON"))
    ∨ (∃ addr e, o.get_instance_public_dns_name iid = Except.ok addr
      ∧ o.update_hosted_zone_cname_record cfg.R53_HOSTED_ZONE_ID
          cfg.NUCLEUS_ROOT_DOMAIN cfg.NUCLEUS_DOMAIN_PREFIX addr
        = Except.error e
      ∧ launchBranch cfg o ev iid
        = ([Call.get_instance_public_dns_name iid,
            Call.update_hosted_zone_cname_record cfg.R53_HOSTED_ZONE_ID
              cfg.NUCLEUS_ROOT_DOMAIN cfg.NUCLEUS_DOMAIN_PREFIX addr,
            Call.complete_lifecycle_action hook grp tok "ABANDON" iid],
           reportOutcome o hook grp tok iid "ABANDON"))
    ∨ (∃ addr e, o.get_instance_public_dns_name iid = Except.ok addr
      ∧ o.update_hosted_zone_cname_record cfg.R53_HOSTED_ZONE_ID
          cfg.NUCLEUS_ROOT_DOMAIN cfg.NUCLEUS_DOMAIN_PREFIX addr
        = Except.ok ()
      ∧ o.run_commands iid
          (commands cfg.ARTIFACTS_BUCKET cfg.NUCLEUS_SERVER_ADDRESS
            cfg.REVERSE_PROXY_SSL_CERT_ARN (provisionDomain cfg))
          "AWS-RunShellScript" = Except.error e
      ∧ launchBranch cfg o ev iid
        = ([Call.get_instance_public_dns_name iid,
            Call.update_hosted_zone_cname_record cfg.R53_HOSTED_ZONE_ID
              cfg.NUCLEUS_ROOT_DOMAIN cfg.NUCLEUS_DOMAIN_PREFIX addr,
            Call.run_commands iid
              (commands cfg.ARTIFACTS_BUCKET cfg.NUCLEUS_SERVER_ADDRESS
                cfg.REVERSE_PROXY_SSL_CERT_ARN (provisionDomain cfg))
              "AWS-RunShellScript",
            Call.complete_lifecycle_action hook grp tok "ABANDON" iid],
           reportOutcome o hook grp tok iid "ABANDON"))
    ∨ (∃ addr r e, o.get_instance_public_dns_name iid = Except.ok addr
      ∧ o.update_hosted_zone_cname_record cfg.R53_HOSTED_ZONE_ID
          cfg.NUCLEUS_ROOT_DOMAIN cfg.NUCLEUS_DOMAIN_PREFIX addr
        = Except.ok ()
      ∧ o.run_commands iid
          (commands cfg.ARTIFACTS_BUCKET cfg.NUCLEUS_SERVER_ADDRESS
            cfg.REVERSE_PROXY_SSL_CERT_ARN (provisionDomain cfg))
          "AWS-RunShellScript" = Except.ok r
      ∧ o.complete_lifecycle_action hook grp tok "CONTINUE" iid
        = Except.error e
      ∧ launchBranch cfg o ev iid
        = ([Call.get_instance_public_dns_name iid,
            Call.update_hosted_zone_cname_record cfg.R53_HOSTED_ZONE_ID
              cfg.NUCLEUS_ROOT_DOMAIN cfg.NUCLEUS_DOMAIN_PREFIX addr,
            Call.run_commands iid
              (commands cfg.ARTIFACTS_BUCKET cfg.NUCLEUS_SERVER_ADDRESS
                cfg.REVERSE_PROXY_SSL_CERT_ARN (provisionDomain cfg))
              "AWS-RunShellScript",
            Call.complete_lifecycle_action hook grp tok "CONTINUE" iid,
            Call.complete_lifecycle_action hook grp tok "ABANDON" iid],
           reportOutcome o hook grp tok iid "ABANDON"))
    ∨ (∃ addr r, o.get_instance_public_dns_name iid = Except.ok addr
      ∧ o.update_hosted_zone_cname_record cfg.R53_HOSTED_ZONE_ID
          cfg.NUCLEUS_ROOT_DOMAIN cfg.NUCLEUS_DOMAIN_PREFIX addr
        = Except.ok ()
      ∧ o.run_commands iid
          (commands cfg.ARTIFACTS_BUCKET cfg.NUCLEUS_SERVER_ADDRESS
            cfg.REVERSE_PROXY_SSL_CERT_ARN (provisionDomain cfg))
          "AWS-RunShellScript" = Except.ok r
      ∧ o.complete_lifecycle_action hook grp tok "CONTINUE" iid
        = Except.ok ()
      ∧ launchBranch cfg o ev iid
        = ([Call.get_instance_public_dns_name iid,
            Call.update_hosted_zone_cname_record cfg.R53_HOSTED_ZONE_ID
              cfg.NUCLEUS_ROOT_DOMAIN cfg.NUCLEUS_DOMAIN_PREFIX addr,
            Call.run_commands iid
              (commands cfg.ARTIFACTS_BUCKET cfg.NUCLEUS_SERVER_ADDRESS
                cfg.REVERSE_PROXY_SSL_CERT_ARN (provisionDomain cfg))
              "AWS-RunShellScript",
            Call.complete_lifecycle_action hook grp tok "CONTINUE" iid],
           Except.ok ())) := by
  rcases h1 : o.get_instance_public_dns_name iid with e | addr
  · refine Or.inl ⟨e, rfl, ?_⟩
    simp [launchBranch, h1, abandonReport,
      send_full "ABANDON" hd hiid hhook hgrp htok]
  · rcases h2 : o.update_hosted_zone_cname_record cfg.R53_HOSTED_ZONE_ID
        cfg.NUCLEUS_ROOT_DOMAIN cfg.NUCLEUS_DOMAIN_PREFIX addr with e | ⟨⟩
    · refine Or.inr (Or.inl ⟨addr, e, by first | rfl | exact h1, by first | rfl | exact h2, ?_⟩)
      simp [launchBranch, h1, h2, abandonReport,
        send_full "ABANDON" hd hiid hhook hgrp htok]
    · rcases h3 : o.run_commands iid
          (commands cfg.ARTIFACTS_BUCKET cfg.NUCLEUS_SERVER_ADDRESS
            cfg.REVERSE_PROXY_SSL_CERT_ARN (provisionDomain cfg))
          "AWS-RunShellScript" with e | r
      · refine Or.inr (Or.inr (Or.inl ⟨addr, e, by first | rfl | exact h1, by first | rfl | exact h2, by first | rfl | exact h3, ?_⟩))
        simp [launchBranch, update_nginix_config, h1, h2, h3, abandonReport,
          send_full "ABANDON" hd hiid hhook hgrp htok]
      · rcases h4 : o.complete_lifecycle_action hook grp tok "CONTINUE" iid
            with e | ⟨⟩
        · refine Or.inr (Or.inr (Or.inr (Or.inl
            ⟨addr, r, e, by first | rfl | exact h1, by first | rfl | exact h2,
             by first | rfl | exact h3, by first | rfl | exact h4, ?_⟩)))
          cases e <;>
            simp [launchBranch, update_nginix_config, h1, h2, h3,
              abandonReport, send_full "CONTINUE" hd hiid hhook hgrp htok,
              send_full "ABANDON" hd hiid hhook hgrp htok, reportOutcome, h4]
        · refine Or.inr (Or.inr (Or.inr (Or.inr
            ⟨addr, r, by first | rfl | exact h1, by first | rfl | exact h2,
             by first | rfl | exact h3, by first | rfl | exact h4, ?_⟩)))
          simp [launchBranch, update_nginix_config, h1, h2, h3,
            send_full "CONTINUE" hd hiid hhook hgrp htok, reportOutcome, h4]

/-- Exhaustive case analysis of the terminate branch over a complete event,
in the same style as the launch branch. -/
theorem terminateBranch_cases (cfg : Config) (o : Oracle) {ev : Event}
    {d : EventDetail} {iid hook grp tok : String}
    (hd : ev.detail = some d) (hiid : d.EC2InstanceId = some iid)
    (hhook : d.LifecycleHookName = some hook)
    (hgrp : d.AutoScalingGroupName = some grp)
    (htok : d.LifecycleActionToken = some tok) :
    (∃ e, o.get_instance_public_dns_name iid = Except.error e
      ∧ terminateBranch cfg o ev iid
        = ([Call.get_instance_public_dns_name iid,
            Call.complete_lifecycle_action hook grp tok "ABANDON" iid],
           reportOutcome o hook grp tok iid "ABANDON"))
    ∨ (∃ addr e, o.get_instance_public_dns_name iid = Except.ok addr
      ∧ o.delete_hosted_zone_cname_record cfg.R53_HOSTED_ZONE_ID
          cfg.NUCLEUS_ROOT_DOMAIN cfg.NUCLEUS_DOMAIN_PREFIX addr
        = Except.error e
      ∧ terminateBranch cfg o ev iid
        = ([Call.get_instance_public_dns_name iid,
            Call.delete_hosted_zone_cname_record cfg.R53_HOSTED_ZONE_ID
              cfg.NUCLEUS_ROOT_DOMAIN cfg.NUCLEUS_DOMAIN_PREFIX addr,
            Call.complete_lifecycle_action hook grp tok "ABANDON" iid],
           reportOutcome o hook grp tok iid "ABANDON"))
    ∨ (∃ addr e, o.get_instance_public_dns_name iid = Except.ok addr
      ∧ o.delete_hosted_zone_cname_record cfg.R53_HOSTED_ZONE_ID
          cfg.NUCLEUS_ROOT_DOMAIN cfg.NUCLEUS_DOMAIN_PREFIX addr
        = Except.ok ()
      ∧ o.complete_lifecycle_action hook grp tok "CONTINUE" iid
        = Except.error e
      ∧ terminateBranch cfg o ev iid
        = ([Call.get_instance_public_dns_name iid,
            Call.delete_hosted_zone_cname_record cfg.R53_HOSTED_ZONE_ID
              cfg.NUCLEUS_ROOT_DOMAIN cfg.NUCLEUS_DOMAIN_PREFIX addr,
            Call.complete_lifecycle_action hook grp tok "CONTINUE" iid,
            Call.complete_lifecycle_action hook grp tok "ABANDON" iid],
           reportOutcome o hook grp tok iid "ABANDON"))
    ∨ (∃ addr, o.get_instance_public_dns_name iid = Except.ok addr
      ∧ o.delete_hosted_zone_cname_record cfg.R53_HOSTED_ZONE_ID
          cfg.NUCLEUS_ROOT_DOMAIN cfg.NUCLEUS_DOMAIN_PREFIX addr
        = Except.ok ()
      ∧ o.complete_lifecycle_action hook grp tok "CONTINUE" iid
        = Except.ok ()
      ∧ terminateBranch cfg o ev iid
        = ([Call.get_instance_public_dns_name iid,
            Call.delete_hosted_zone_cname_record cfg.R53_HOSTED_ZONE_ID
              cfg.NUCLEUS_ROOT_DOMAIN cfg.NUCLEUS_DOMAIN_PREFIX addr,
            Call.complete_lifecycle_action hook grp tok "CONTINUE" iid],
           Except.ok ())) := by
  rcases h1 : o.get_instance_public_dns_name iid with e | addr
  · refine Or.inl ⟨e, rfl, ?_⟩
    simp [terminateBranch, h1, abandonReport,
      send_full "ABANDON" hd hiid hhook hgrp htok]
  · rcases h2 : o.delete_hosted_zone_cname_record cfg.R53_HOSTED_ZONE_ID
        cfg.NUCLEUS_ROOT_DOMAIN cfg.NUCLEUS_DOMAIN_PREFIX addr with e | ⟨⟩
    · refine Or.inr (Or.inl ⟨addr, e, by first | rfl | exact h1, by first | rfl | exact h2, ?_⟩)
      simp [terminateBranch, h1, h2, abandonReport,
        send_full "ABANDON" hd hiid hhook hgrp htok]
    · rcases h3 : o.complete_lifecycle_action hook grp tok "CONTINUE" iid
          with e | ⟨⟩
      · refine Or.inr (Or.inr (Or.inl ⟨addr, e, by first | rfl | exact h1, by first | rfl | exact h2, by first | rfl | exact h3, ?_⟩))
        cases e <;>
          simp [terminateBranch, h1, h2, abandonReport,
            send_full "CONTINUE" hd hiid hhook hgrp htok,
            send_full "ABANDON" hd hiid hhook hgrp htok, reportOutcome, h3]
      · refine Or.inr (Or.inr (Or.inr
          ⟨addr, by first | rfl | exact h1, by first | rfl | exact h2,
           by first | rfl | exact h3, ?_⟩))
        simp [terminateBranch, h1, h2,
          send_full "CONTINUE" hd hiid hhook hgrp htok, reportOutcome, h3]

/-- An oracle whose EC2 metadata lookup fails. -/
def ec2FailOracle : Oracle :=
  { okOracle with get_instance_public_dns_name :=
      fun _ => Except.error (PyErr.otherError "ec2 down") }

/-- An oracle whose report API rejects CONTINUE but accepts ABANDON. -/
def contFailOracle : Oracle :=
  { okOracle with complete_lifecycle_action :=
      fun _ _ _ res _ =>
        if res = "CONTINUE" then Except.error (PyErr.clientError "throttled")
        else Except.ok () }

/-- An oracle whose EC2 lookup fails and whose report API rejects ABANDON. -/
def abFailOracle : Oracle :=
  { okOracle with
      get_instance_public_dns_name :=
        fun _ => Except.error (PyErr.otherError "ec2 down"),
      complete_lifecycle_action :=
        fun _ _ _ res _ =>
          if res = "ABANDON" then Except.error (PyErr.clientError "denied")
          else Except.ok () }

/-- A launch event whose detail lacks `LifecycleHookName`. -/
def noHookEvent : Event :=
  ⟨some ⟨some "i-0abc", some "autoscaling:EC2_INSTANCE_LAUNCHING", none,
    some "asg-1", some "tok-1"⟩⟩

/-- C3 counterexample: on a launch event whose detail lacks
`LifecycleHookName` — a malformed event shape — with every collaborator call
succeeding, the `KeyError` raised while assembling the CONTINUE report is
caught by the branch, but the ABANDON attempt raises the same `KeyError`,
which escapes the handler: the failure is not converted into an ABANDON
report (no report call appears in the trace) and an exception is re-raised
past the handler. -/
theorem collaborator_failure_single_abandon_counterexample :
    handler cfg0 okOracle noHookEvent
      = ([Call.get_instance_public_dns_name "i-0abc",
          Call.update_hosted_zone_cname_record "Z1" "example.com" "nucleus"
            "ec2-host.example.net",
          Call.run_commands "i-0abc"
            (commands "bucket-1" "10.0.0.5" "arn:cert-1"
              "nucleus.example.com") "AWS-RunShellScript"],
         Except.error (PyErr.keyError "LifecycleHookName")) := by
  rfl

/-- C3 (amended): on a complete event (all report fields present) with a
recognized transition, a collaborator-call failure inside the transition
branch is caught at the branch boundary and — provided the ABANDON report
call itself succeeds — answered with exactly one ABANDON report, which is
the branch's final call, with no exception re-raised past the handler and no
collaborator call after the failing one other than that report (when the
failing call is the CONTINUE report attempt itself, that failed attempt also
appears in the trace). A malformed event missing a report field instead lets
the `KeyError` escape, and an ABANDON-report failure propagates: see the
counterexample and C9. -/
theorem collaborator_failure_single_abandon
    (cfg : Config) (o : Oracle) (ev : Event) (d : EventDetail)
    (iid hook grp tok tr : String)
    (hd : ev.detail = some d)
    (hiid : d.EC2InstanceId = some iid)
    (htr : d.LifecycleTransition = some tr)
    (hhook : d.LifecycleHookName = some hook)
    (hgrp : d.AutoScalingGroupName = some grp)
    (htok : d.LifecycleActionToken = some tok)
    (hrec : tr = "autoscaling:EC2_INSTANCE_LAUNCHING"
      ∨ tr = "autoscaling:EC2_INSTANCE_TERMINATING")
    (hab : o.complete_lifecycle_action hook grp tok "ABANDON" iid
      = Except.ok ())
    (hfailL : tr = "autoscaling:EC2_INSTANCE_LAUNCHING"
      → ¬ launchSucceeds cfg o iid hook grp tok)
    (hfailT : tr = "autoscaling:EC2_INSTANCE_TERMINATING"
      → ¬ terminateSucceeds cfg o iid hook grp tok) :
    (handler cfg o ev).2 = Except.ok ()
      ∧ (handler cfg o ev).1.count
          (Call.complete_lifecycle_action hook grp tok "ABANDON" iid) = 1
      ∧ (handler cfg o ev).1.getLast?
        = some (Call.complete_lifecycle_action hook grp tok "ABANDON"
            iid) := by
  rcases hrec with rfl | rfl
  · have hh : handler cfg o ev = launchBranch cfg o ev iid := by
      simp [handler, hd, hiid, htr]
    rw [hh]
    rcases launchBranch_cases cfg o hd hiid hhook hgrp htok with
      ⟨e, h1, heq⟩ | ⟨addr, e, h1, h2, heq⟩ | ⟨addr, e, h1, h2, h3, heq⟩
      | ⟨addr, r, e, h1, h2, h3, h4, heq⟩ | ⟨addr, r, h1, h2, h3, h4, heq⟩
    · rw [heq]; simp [reportOutcome_ok hab, List.count_cons]
    · rw [heq]; simp [reportOutcome_ok hab, List.count_cons]
    · rw [heq]; simp [reportOutcome_ok hab, List.count_cons]
    · rw [heq]; simp [reportOutcome_ok hab, List.count_cons]
    · exact absurd ⟨addr, r, h1, h2, h3, h4⟩ (hfailL rfl)
  · have hh : handler cfg o ev = terminateBranch cfg o ev iid := by
      simp [handler, hd, hiid, htr]
    rw [hh]
    rcases terminateBranch_cases cfg o hd hiid hhook hgrp htok with
      ⟨e, h1, heq⟩ | ⟨addr, e, h1, h2, heq⟩ | ⟨addr, e, h1, h2, h3, heq⟩
      | ⟨addr, h1, h2, h3, heq⟩
    · rw [heq]; simp [reportOutcome_ok hab, List.count_cons]
    · rw [heq]; simp [reportOutcome_ok hab, List.count_cons]
    · rw [heq]; simp [reportOutcome_ok hab, List.count_cons]
    · exact absurd ⟨addr, h1, h2, h3⟩ (hfailT rfl)

/-- Witness for C3 (amended) with a failing EC2 lookup on a launch event. -/
theorem collaborator_failure_single_abandon_witness :
    (handler cfg0 ec2FailOracle launchEvent).2 = Except.ok ()
      ∧ (handler cfg0 ec2FailOracle launchEvent).1.count
          (Call.complete_lifecycle_action "hook-1" "asg-1" "tok-1" "ABANDON"
            "i-0abc") = 1
      ∧ (handler cfg0 ec2FailOracle launchEvent).1.getLast?
        = some (Call.complete_lifecycle_action "hook-1" "asg-1" "tok-1"
            "ABANDON" "i-0abc") :=
  collaborator_failure_single_abandon cfg0 ec2FailOracle launchEvent
    launchDetail "i-0abc" "hook-1" "asg-1" "tok-1"
    "autoscaling:EC2_INSTANCE_LAUNCHING" rfl rfl rfl rfl rfl rfl
    (Or.inl rfl) rfl
    (fun _ => by simp [launchSucceeds, ec2FailOracle, okOracle])
    (fun h => absurd h (by decide))

/-- C5 counterexample: with a recognized transition and a complete event,
when the report API rejects the CONTINUE call (and accepts ABANDON), the
handler makes two outbound report calls in one invocation — the failed
CONTINUE and the subsequent ABANDON — not exactly one. -/
theorem report_call_multiplicity_counterexample :
    ((handler cfg0 contFailOracle launchEvent).1.filter isReport).length
      = 2 := by
  rfl

/-- C5 (amended): on a complete event with a recognized transition, the
handler makes at least one outbound report call, every report call it makes
echoes the event's hook name, group name, token and instance id unchanged,
and it makes exactly one report call provided the report API does not reject
the CONTINUE request (if the CONTINUE report itself fails, one further
ABANDON report is attempted). -/
theorem report_call_multiplicity
    (cfg : Config) (o : Oracle) (ev : Event) (d : EventDetail)
    (iid hook grp tok tr : String)
    (hd : ev.detail = some d)
    (hiid : d.EC2InstanceId = some iid)
    (htr : d.LifecycleTransition = some tr)
    (hhook : d.LifecycleHookName = some hook)
    (hgrp : d.AutoScalingGroupName = some grp)
    (htok : d.LifecycleActionToken = some tok)
    (hrec : tr = "autoscaling:EC2_INSTANCE_LAUNCHING"
      ∨ tr = "autoscaling:EC2_INSTANCE_TERMINATING") :
    1 ≤ ((handler cfg o ev).1.filter isReport).length
      ∧ (∀ c ∈ (handler cfg o ev).1.filter isReport,
          ∃ res, c = Call.complete_lifecycle_action hook grp tok res iid)
      ∧ (o.complete_lifecycle_action hook grp tok "CONTINUE" iid
            = Except.ok ()
          → ((handler cfg o ev).1.filter isReport).length = 1) := by
  rcases hrec with rfl | rfl
  · have hh : handler cfg o ev = launchBranch cfg o ev iid := by
      simp [handler, hd, hiid, htr]
    rw [hh]
    rcases launchBranch_cases cfg o hd hiid hhook hgrp htok with
      ⟨e, h1, heq⟩ | ⟨addr, e, h1, h2, heq⟩ | ⟨addr, e, h1, h2, h3, heq⟩
      | ⟨addr, r, e, h1, h2, h3, h4, heq⟩ | ⟨addr, r, h1, h2, h3, h4, heq⟩ <;>
      rw [heq]
    · refine ⟨by simp [isReport], ?_, fun _ => by simp [isReport]⟩
      intro c hc
      simp [isReport] at hc
      exact ⟨"ABANDON", hc⟩
    · refine ⟨by simp [isReport], ?_, fun _ => by simp [isReport]⟩
      intro c hc
      simp [isReport] at hc
      exact ⟨"ABANDON", hc⟩
    · refine ⟨by simp [isReport], ?_, fun _ => by simp [isReport]⟩
      intro c hc
      simp [isReport] at hc
      exact ⟨"ABANDON", hc⟩
    · refine ⟨by simp [isReport], ?_, fun hcont => ?_⟩
      · intro c hc
        simp [isReport] at hc
        rcases hc with rfl | rfl
        · exact ⟨"CONTINUE", rfl⟩
        · exact ⟨"ABANDON", rfl⟩
      · rw [hcont] at h4; cases h4
    · refine ⟨by simp [isReport], ?_, fun _ => by simp [isReport]⟩
      intro c hc
      simp [isReport] at hc
      exact ⟨"CONTINUE", hc⟩
  · have hh : handler cfg o ev = terminateBranch cfg o ev iid := by
      simp [handler, hd, hiid, htr]
    rw [hh]
    rcases terminateBranch_cases cfg o hd hiid hhook hgrp htok with
      ⟨e, h1, heq⟩ | ⟨addr, e, h1, h2, heq⟩ | ⟨addr, e, h1, h2, h3, heq⟩
      | ⟨addr, h1, h2, h3, heq⟩ <;>
      rw [heq]
    · refine ⟨by simp [isReport], ?_, fun _ => by simp [isReport]⟩
      intro c hc
      simp [isReport] at hc
      exact ⟨"ABANDON", hc⟩
    · refine ⟨by simp [isReport], ?_, fun _ => by simp [isReport]⟩
      intro c hc
      simp [isReport] at hc
      exact ⟨"ABANDON", hc⟩
    · refine ⟨by simp [isReport], ?_, fun hcont => ?_⟩
      · intro c hc
        simp [isReport] at hc
        rcases hc with rfl | rfl
        · exact ⟨"CONTINUE", rfl⟩
        · exact ⟨"ABANDON", rfl⟩
      · rw [hcont] at h3; cases h3
    · refine ⟨by simp [isReport], ?_, fun _ => by simp [isReport]⟩
      intro c hc
      simp [isReport] at hc
      exact ⟨"CONTINUE", hc⟩

/-- Witness for C5 (amended): with every call succeeding on a launch event,
exactly one report call is made. -/
theorem report_call_multiplicity_witness :
    ((handler cfg0 okOracle launchEvent).1.filter isReport).length = 1 :=
  (report_call_multiplicity cfg0 okOracle launchEvent launchDetail
    "i-0abc" "hook-1" "asg-1" "tok-1" "autoscaling:EC2_INSTANCE_LAUNCHING"
    rfl rfl rfl rfl rfl rfl (Or.inl rfl)).2.2 rfl

/-- C9 counterexample: a report-call failure on the success path (signaling
CONTINUE) is not fatal: the branch's exception handler catches it and sends
ABANDON, and the handler returns normally. -/
theorem report_failure_asymmetry_counterexample :
    contFailOracle.complete_lifecycle_action "hook-1" "asg-1" "tok-1"
        "CONTINUE" "i-0abc" = Except.error (PyErr.clientError "throttled")
      ∧ (handler cfg0 contFailOracle launchEvent).2 = Except.ok () :=
  ⟨rfl, rfl⟩

/-- C9 (amended): on a complete event with a recognized transition, a
failure of the ABANDON report call is fatal — the `ClientError` is re-raised
as an `Exception` that escapes the handler — whereas a failure of the
CONTINUE report call is caught by the branch's exception handler, which then
attempts an ABANDON report; if that ABANDON succeeds the handler returns
normally. -/
theorem report_failure_asymmetry
    (cfg : Config) (o : Oracle) (ev : Event) (d : EventDetail)
    (iid hook grp tok tr : String)
    (hd : ev.detail = some d)
    (hiid : d.EC2InstanceId = some iid)
    (htr : d.LifecycleTransition = some tr)
    (hhook : d.LifecycleHookName = some hook)
    (hgrp : d.AutoScalingGroupName = some grp)
    (htok : d.LifecycleActionToken = some tok)
    (hrec : tr = "autoscaling:EC2_INSTANCE_LAUNCHING"
      ∨ tr = "autoscaling:EC2_INSTANCE_TERMINATING") :
    (∀ m, o.complete_lifecycle_action hook grp tok "ABANDON" iid
          = Except.error (PyErr.clientError m)
        → (tr = "autoscaling:EC2_INSTANCE_LAUNCHING"
            → ¬ launchSucceeds cfg o iid hook grp tok)
        → (tr = "autoscaling:EC2_INSTANCE_TERMINATING"
            → ¬ terminateSucceeds cfg o iid hook grp tok)
        → (handler cfg o ev).2
          = Except.error (PyErr.exception
              ("Error completing lifecycle action: " ++ m)))
      ∧ (∀ e, o.complete_lifecycle_action hook grp tok "CONTINUE" iid
            = Except.error e
          → o.complete_lifecycle_action hook grp tok "ABANDON" iid
            = Except.ok ()
          → (handler cfg o ev).2 = Except.ok ()) := by
  rcases hrec with rfl | rfl
  · have hh : handler cfg o ev = launchBranch cfg o ev iid := by
      simp [handler, hd, hiid, htr]
    rw [hh]
    constructor
    · intro m hab hfailL _
      rcases launchBranch_cases cfg o hd hiid hhook hgrp htok with
        ⟨e, h1, heq⟩ | ⟨addr, e, h1, h2, heq⟩ | ⟨addr, e, h1, h2, h3, heq⟩
        | ⟨addr, r, e, h1, h2, h3, h4, heq⟩ | ⟨addr, r, h1, h2, h3, h4, heq⟩
      · rw [heq]; exact reportOutcome_clientError hab
      · rw [heq]; exact reportOutcome_clientError hab
      · rw [heq]; exact reportOutcome_clientError hab
      · rw [heq]; exact reportOutcome_clientError hab
      · exact absurd ⟨addr, r, h1, h2, h3, h4⟩ (hfailL rfl)
    · intro e hcont hab
      rcases launchBranch_cases cfg o hd hiid hhook hgrp htok with
        ⟨e2, h1, heq⟩ | ⟨addr, e2, h1, h2, heq⟩ | ⟨addr, e2, h1, h2, h3, heq⟩
        | ⟨addr, r, e2, h1, h2, h3, h4, heq⟩ | ⟨addr, r, h1, h2, h3, h4, heq⟩
      · rw [heq]; exact reportOutcome_ok hab
      · rw [heq]; exact reportOutcome_ok hab
      · rw [heq]; exact reportOutcome_ok hab
      · rw [heq]; exact reportOutcome_ok hab
      · rw [hcont] at h4; cases h4
  · have hh : handler cfg o ev = terminateBranch cfg o ev iid := by
      simp [handler, hd, hiid, htr]
    rw [hh]
    constructor
    · intro m hab _ hfailT
      rcases terminateBranch_cases cfg o hd hiid hhook hgrp htok with
        ⟨e, h1, heq⟩ | ⟨addr, e, h1, h2, heq⟩ | ⟨addr, e, h1, h2, h3, heq⟩
        | ⟨addr, h1, h2, h3, heq⟩
      · rw [heq]; exact reportOutcome_clientError hab
      · rw [heq]; exact reportOutcome_clientError hab
      · rw [heq]; exact reportOutcome_clientError hab
      · exact absurd ⟨addr, h1, h2, h3⟩ (hfailT rfl)
    · intro e hcont hab
      rcases terminateBranch_cases cfg o hd hiid hhook hgrp htok with
        ⟨e2, h1, heq⟩ | ⟨addr, e2, h1, h2, heq⟩ | ⟨addr, e2, h1, h2, h3, heq⟩
        | ⟨addr, h1, h2, h3, heq⟩
      · rw [heq]; exact reportOutcome_ok hab
      · rw [heq]; exact reportOutcome_ok hab
      · rw [heq]; exact reportOutcome_ok hab
      · rw [hcont] at h3; cases h3

/-- Witness for C9 (amended): an ABANDON-report rejection escapes as an
`Exception`; a CONTINUE-report rejection followed by a successful ABANDON
yields a normal return. -/
theorem report_failure_asymmetry_witness :
    (handler cfg0 abFailOracle launchEvent).2
        = Except.error (PyErr.exception
            ("Error completing lifecycle action: " ++ "denied"))
      ∧ (handler cfg0 contFailOracle launchEvent).2 = Except.ok () :=
  ⟨(report_failure_asymmetry cfg0 abFailOracle launchEvent launchDetail
      "i-0abc" "hook-1" "asg-1" "tok-1" "autoscaling:EC2_INSTANCE_LAUNCHING"
      rfl rfl rfl rfl rfl rfl (Or.inl rfl)).1 "denied" rfl
      (fun _ => by simp [launchSucceeds, abFailOracle, okOracle])
      (fun h => absurd h (by decide)),
   (report_failure_asymmetry cfg0 contFailOracle launchEvent launchDetail
      "i-0abc" "hook-1" "asg-1" "tok-1" "autoscaling:EC2_INSTANCE_LAUNCHING"
      rfl rfl rfl rfl rfl rfl (Or.inl rfl)).2 (PyErr.clientError "throttled")
      rfl rfl⟩

/-- The all-success oracle never raises `KeyError`. -/
theorem okOracle_noKeyErrors : Oracle.NoKeyErrors okOracle :=
  ⟨fun _ _ => by simp [okOracle], fun _ _ _ _ _ => by simp [okOracle],
   fun _ _ _ _ _ => by simp [okOracle], fun _ _ _ _ => by simp [okOracle],
   fun _ _ _ _ _ _ => by simp [okOracle]⟩

/-- An environment missing the `ARTIFACTS_BUCKET` key. -/
def envMissingBucket : String → Option String :=
  fun k => if k = "ARTIFACTS_BUCKET" then none else some "cfg-value"

/-- Witness for C8: module initialization fails on an environment missing
`ARTIFACTS_BUCKET`, and the `KeyError` out of a handler run on an event with
no detail names the event key `"detail"`. -/
theorem config_missing_fails_at_startup_witness :
    ((∃ cfg, initModule envMissingBucket = Except.ok cfg)
        ↔ ∀ k ∈ requiredEnvKeys, (envMissingBucket k).isSome)
      ∧ "detail" ∈ eventKeys :=
  ⟨config_missing_fails_at_startup.1 envMissingBucket,
   config_missing_fails_at_startup.2 cfg0 okOracle ⟨none⟩ "detail"
     okOracle_noKeyErrors rfl⟩

end ReverseProxyHook
